import Mathlib

/-!
Shallow embedding of the kube-rs controller event pipeline
(src/kube/src/runtime/controller.rs) together with the in-cluster
configuration helpers (src/kube/src/config/incluster_config.rs).

Pure data and pure functions are translated directly from the source.
The concurrent parts of the pipeline (one spawned listener task per
informer, all sending onto one shared unbounded multi-producer channel)
are embedded as follows: a listener task's behaviour is the list of
messages it sends onto the channel, as a function of its watch stream
(`listenerSends`), and the channel contents observed by the consumer are
an arbitrary interleaving of the per-listener send sequences
(`Interleaving`), which is exactly the guarantee of an unbounded mpsc
channel (per-sender FIFO, arbitrary cross-sender order).  Types declared
by the repository outside the provided sources (Resource, ListParams,
APIClient, Informer, ErrorResponse, the error enum, the Meta trait, the
WatchEvent enum) are modelled from the spec, as marked on each one.
-/

/-- Modelled from the spec: the API error payload carried by an `Error`
Change Notification (the repository's `ErrorResponse` type is declared
outside the provided sources). -/
structure ErrorResponse where
  status : String
  message : String
  reason : String
  code : Nat

/-- Modelled from the spec: the pipeline-level error type; `Error.Api`
wraps a source `ErrorResponse`, matching `Error::Api(e)` in the source
(the repository's error enum is declared outside the provided sources). -/
inductive Error where
  | Api : ErrorResponse → Error

/-- The `Result` alias of the repository: success or a pipeline `Error`. -/
abbrev Result (α : Type) : Type := Except Error α

/-- Modelled from the spec: the name/namespace capability set that every
Watched Object exposes (the repository's `Meta` trait is declared outside
the provided sources). -/
class Meta (K : Type) where
  name : K → String
  namespace' : K → Option String

/-- Modelled from the spec: a Change Notification from a Watch Source.
The four variants are pinned by the exhaustive match in controller.rs
(the repository's `WatchEvent` enum is declared outside the provided
sources). -/
inductive WatchEvent (K : Type) where
  | Added : K → WatchEvent K
  | Modified : K → WatchEvent K
  | Deleted : K → WatchEvent K
  | Error : ErrorResponse → WatchEvent K

/-- An object to be reconciled: the identity (name, optional namespace)
pulled out of the controller (`ReconcileEvent` in controller.rs). -/
structure ReconcileEvent where
  name : String
  namespace' : Option String

/-- The `From<K> for ReconcileEvent` impl: extract the identity through
the `Meta` capability (`from` is a keyword in Lean, hence `fromK`). -/
def ReconcileEvent.fromK {K : Type} [Meta K] (k : K) : ReconcileEvent :=
  ⟨Meta.name k, Meta.namespace' k⟩

/-- The `TryFrom<WatchEvent<K>> for ReconcileEvent` impl: the Event
Normalizer of the pipeline. -/
def ReconcileEvent.tryFrom {K : Type} [Meta K] : WatchEvent K → Result ReconcileEvent
  | WatchEvent.Added o => Except.ok (ReconcileEvent.fromK o)
  | WatchEvent.Modified o => Except.ok (ReconcileEvent.fromK o)
  | WatchEvent.Deleted o => Except.ok (ReconcileEvent.fromK o)
  | WatchEvent.Error e => Except.error (Error.Api e)

/-- `SERVICE_HOSTENV` from incluster_config.rs. -/
def SERVICE_HOSTENV : String := "KUBERNETES_SERVICE_HOST"

/-- `SERVICE_PORTENV` from incluster_config.rs. -/
def SERVICE_PORTENV : String := "KUBERNETES_SERVICE_PORT"

/-- `kube_host` from incluster_config.rs; the process environment is
passed explicitly as a lookup function. -/
def kube_host (env : String → Option String) : Option String :=
  env SERVICE_HOSTENV

/-- `kube_port` from incluster_config.rs. -/
def kube_port (env : String → Option String) : Option String :=
  env SERVICE_PORTENV

/-- `kube_server` from incluster_config.rs: formats
`https://host:port` when both environment variables are present. -/
def kube_server (env : String → Option String) : Option String :=
  (kube_host env).bind (fun h => (kube_port env).map (fun p => "https://" ++ h ++ ":" ++ p))

/-- Modelled from the spec: a Resource Identity — (API group, version,
kind, optional namespace) — scoping one Watch Source (the repository's
`Resource` type is declared outside the provided sources). -/
structure Resource where
  group : String
  version : String
  kind : String
  namespace' : Option String

/-- Modelled from the spec: the listing/filtering parameters attached to
an owned resource's watch (the repository's `ListParams` type is declared
outside the provided sources). -/
structure ListParams where
  labelSelector : Option String
  fieldSelector : Option String

/-- Modelled from the spec: the cluster API client handle; the controller
only stores and clones it (the repository's `APIClient` type is declared
outside the provided sources). -/
structure APIClient where
  clusterUrl : String

/-- Modelled from the spec: an informer is the Watch Source handle for
one resource, built by `Informer::new(client, lp, r)` from a client,
list parameters and a resource identity (the repository's `Informer`
type is declared outside the provided sources). -/
structure Informer (K : Type) where
  client : APIClient
  params : ListParams
  resource : Resource

/-- `Informer::new(client, lp, r)`. -/
def Informer.new {K : Type} (client : APIClient) (lp : ListParams) (r : Resource) :
    Informer K :=
  ⟨client, lp, r⟩

/-- The controller state (`Controller<K>` in controller.rs): the client,
the primary resource, the owned informers, the internal debounce queue
(a `VecDeque` behind a mutex) and the buffered contents of the shared
unbounded channel. -/
structure Controller (K : Type) where
  client : APIClient
  resource : Resource
  informers : List (Informer K)
  queue : List ReconcileEvent
  channel : List (Result ReconcileEvent)

/-- `Controller::new(client, r)`: empty informer list, empty (default)
queue, fresh empty channel. -/
def Controller.new {K : Type} (client : APIClient) (r : Resource) : Controller K :=
  ⟨client, r, [], [], []⟩

/-- `Controller::owns(r, lp)`: push an internal informer for an owned
resource, built from a clone of the controller's client. -/
def Controller.owns {K : Type} (c : Controller K) (r : Resource) (lp : ListParams) :
    Controller K :=
  ⟨c.client, c.resource, c.informers ++ [Informer.new c.client lp r], c.queue, c.channel⟩

/-- `Controller::init`: iterates over `self.informers.clone()` and spawns
one listener task per informer, returning `self` unchanged.  The second
component is the list of listener tasks spawned, in order — exactly one
per informer, and none for the primary resource. -/
def Controller.init {K : Type} (c : Controller K) : Controller K × List (Informer K) :=
  (c, c.informers)

/-- One listener task's sends onto the shared channel, as a function of
its Watch Source output (the spawned loop in `Controller::init`): an
`Ok` notification is normalized with `tryFrom` and the result — success
or error — is forwarded with `unbounded_send`; a stream-level `Err`
falls into the wildcard arm, which panics the task, so nothing further
is sent. -/
def listenerSends {K : Type} [Meta K] : List (Result (WatchEvent K)) → List (Result ReconcileEvent)
  | [] => []
  | Except.ok wi :: rest => ReconcileEvent.tryFrom wi :: listenerSends rest
  | Except.error _ :: _ => []

/-- The contents of the shared unbounded channel as observed by the
single consumer: an interleaving of the per-listener send sequences.
Each step takes the next unsent message of some listener; a listener's
own send order is never reordered (per-sender FIFO of the mpsc channel). -/
inductive Interleaving {α : Type} : List (List α) → List α → Prop
  | nil : ∀ ls : List (List α), (∀ l ∈ ls, l = []) → Interleaving ls []
  | step : ∀ (ls : List (List α)) (i : Nat) (x : α) (l' : List α) (out : List α),
      ls.get? i = some (x :: l') → Interleaving (ls.set i l') out →
      Interleaving ls (x :: out)

/-- The consumer's dequeue on the FIFO channel buffer: pop the front. -/
def dequeue {α : Type} : List α → Option α × List α
  | [] => (none, [])
  | x :: rest => (some x, rest)

/-- Draining the channel buffer to exhaustion, one front-pop at a time:
the order in which the caller observes the buffered messages. -/
def drainAll {α : Type} : List α → List α
  | [] => []
  | x :: rest => x :: drainAll rest

/-- The running pipeline as seen by the consumer: the channel buffer of
already-forwarded requests, plus whether listener production is active. -/
structure PipelineState where
  buffer : List (Result ReconcileEvent)
  producing : Bool

/-- Modelled from the spec: stopping the Controller.  The provided
sources have no stop operation; per the spec, cancellation is
cooperative, stops new production only, and leaves already-forwarded
requests in the channel buffer untouched (the receiver half of the
unbounded channel keeps its buffered messages when senders go away). -/
def stopController (s : PipelineState) : PipelineState :=
  PipelineState.mk s.buffer false

/-- The caller pulling the next available request off the pipeline. -/
def pollPipeline (s : PipelineState) : Option (Result ReconcileEvent) × PipelineState :=
  match s.buffer with
  | [] => (none, s)
  | x :: rest => (some x, PipelineState.mk rest s.producing)

/-- A concrete Watched Object kind used for witnesses and counterexamples. -/
structure TestObj where
  name : String
  namespace' : Option String

instance : Meta TestObj :=
  ⟨TestObj.name, TestObj.namespace'⟩

/-- A sample object with identity ("a", "default"). -/
def objA : TestObj := ⟨"a", some "default"⟩

/-- The reconcile request for `objA`. -/
def reqA : ReconcileEvent := ⟨"a", some "default"⟩

/-- A second sample object with identity ("b", "default"). -/
def objB : TestObj := ⟨"b", some "default"⟩

/-- The reconcile request for `objB`. -/
def reqB : ReconcileEvent := ⟨"b", some "default"⟩

/-- A sample API error (410 Gone, resource version expired). -/
def e0 : ErrorResponse := ⟨"Failure", "too old resource version", "Expired", 410⟩

/-- A concrete API client handle. -/
def testClient : APIClient := ⟨"https://10.0.0.1:443"⟩

/-- Empty list parameters. -/
def lp0 : ListParams := ⟨none, none⟩

/-- A concrete primary resource identity. -/
def podRes : Resource := ⟨"", "v1", "Pod", some "default"⟩

/-- A concrete owned (secondary) resource identity. -/
def rsRes : Resource := ⟨"apps", "v1", "ReplicaSet", some "default"⟩

/-- A concrete environment with both kubernetes service variables set. -/
def envBoth : String → Option String := fun s =>
  if s = SERVICE_HOSTENV then some "fake.io"
  else if s = SERVICE_PORTENV then some "8080" else none

/-- Controller states reachable through the public operations: `new`,
any number of `owns` registrations, `init`, and listener sends — which
in the source only ever forward onto the channel (the enqueue onto the
debounce queue is commented out in the listener body). -/
inductive Reachable {K : Type} : Controller K → Prop
  | new : ∀ (cl : APIClient) (r : Resource), Reachable (Controller.new cl r)
  | owns : ∀ (c : Controller K) (r : Resource) (lp : ListParams),
      Reachable c → Reachable (c.owns r lp)
  | init : ∀ c : Controller K, Reachable c → Reachable (c.init).1
  | send : ∀ (c : Controller K) (m : Result ReconcileEvent), Reachable c →
      Reachable ⟨c.client, c.resource, c.informers, c.queue, c.channel ++ [m]⟩

/-- Draining a FIFO buffer yields exactly its contents in order. -/
theorem drainAll_eq {α : Type} : ∀ l : List α, drainAll l = l
  | [] => rfl
  | x :: rest => congrArg (x :: ·) (drainAll_eq rest)

/-- An index with a value is inside the list's length. -/
theorem get?_some_lt {α : Type} :
    ∀ (ls : List α) (i : Nat) (a : α), ls.get? i = some a → i < ls.length
  | [], _, _, h => by simp [List.get?] at h
  | _ :: _, 0, _, _ => Nat.succ_pos _
  | _ :: xs, Nat.succ n, a, h => Nat.succ_lt_succ (get?_some_lt xs n a h)

/-- Reading back the position just written by `set`. -/
theorem get?_set_self {α : Type} :
    ∀ (ls : List α) (i : Nat) (a : α), i < ls.length → (ls.set i a).get? i = some a
  | [], _, _, h => absurd h (by simp)
  | _ :: _, 0, _, _ => rfl
  | _ :: xs, Nat.succ n, a, h => get?_set_self xs n a (Nat.lt_of_succ_lt_succ h)

/-- `set` leaves every other position unchanged. -/
theorem get?_set_other {α : Type} :
    ∀ (ls : List α) (i j : Nat) (a : α), i ≠ j → (ls.set i a).get? j = ls.get? j
  | [], _, _, _, _ => rfl
  | _ :: _, 0, 0, _, h => absurd rfl h
  | _ :: _, 0, Nat.succ _, _, _ => rfl
  | _ :: _, Nat.succ _, 0, _, _ => rfl
  | _ :: xs, Nat.succ i, Nat.succ j, a, h =>
      get?_set_other xs i j a (fun he => h (congrArg Nat.succ he))

/-- A value read out of a list is a member of it. -/
theorem get?_some_mem {α : Type} :
    ∀ (ls : List α) (i : Nat) (a : α), ls.get? i = some a → a ∈ ls
  | [], _, _, h => by simp [List.get?] at h
  | x :: xs, 0, a, h => by
      have hx : x = a := Option.some.inj h
      rw [← hx]
      exact List.mem_cons_self x xs
  | x :: xs, Nat.succ n, a, h => List.mem_cons_of_mem x (get?_some_mem xs n a h)

/-- Mapping commutes with positional lookup. -/
theorem get?_map_some {α β : Type} (f : α → β) :
    ∀ (ls : List α) (i : Nat) (s : α), ls.get? i = some s → (ls.map f).get? i = some (f s)
  | [], _, _, h => by simp [List.get?] at h
  | x :: _, 0, s, h => by
      have hx : x = s := Option.some.inj h
      rw [← hx]
      rfl
  | _ :: xs, Nat.succ n, s, h => get?_map_some f xs n s h

/-- Every interleaved sequence contains each contributing sequence as an
order-preserving subsequence: the shared channel never reorders one
sender's messages. -/
theorem interleaving_sublist {α : Type} {ls : List (List α)} {out : List α}
    (h : Interleaving ls out) :
    ∀ (i : Nat) (l : List α), ls.get? i = some l → List.Sublist l out := by
  induction h with
  | nil ls hls =>
    intro i l hi
    rw [hls l (get?_some_mem ls i l hi)]
  | step ls i x l' out hget hI ih =>
    intro j m hj
    by_cases hij : j = i
    · subst hij
      rw [hget] at hj
      have hm : x :: l' = m := Option.some.inj hj
      rw [← hm]
      exact List.Sublist.cons₂ x
        (ih j l' (get?_set_self ls j l' (get?_some_lt ls j (x :: l') hget)))
    · refine List.Sublist.cons x (ih j m ?_)
      rw [get?_set_other ls i j l' (fun he => hij he.symm)]
      exact hj

/-- Folding `owns` over a registration list appends one informer per
registration, in order, each carrying the registered resource. -/
theorem foldl_owns_informers {K : Type} :
    ∀ (regs : List (Resource × ListParams)) (c : Controller K),
      (regs.foldl (fun c p => c.owns p.1 p.2) c).informers.map Informer.resource =
        c.informers.map Informer.resource ++ regs.map Prod.fst
  | [], c => (List.append_nil _).symm
  | p :: ps, c => by
    have ih := foldl_owns_informers ps (c.owns p.1 p.2)
    simp only [List.foldl_cons, List.map_cons]
    rw [ih]
    simp [Controller.owns, Informer.new, List.map_append]

/-- A listener over an error-free stream forwards the normalization of
every notification, in notification order. -/
theorem listenerSends_map_ok {K : Type} [Meta K] :
    ∀ evs : List (WatchEvent K),
      listenerSends (evs.map Except.ok) = evs.map ReconcileEvent.tryFrom
  | [] => rfl
  | _ :: rest => congrArg (_ :: ·) (listenerSends_map_ok rest)

/-- Claim C1: for every Watched Object kind with the name/namespace
capability, the Event Normalizer is a pure total function: `Added`,
`Modified` and `Deleted` map to `Ok` of exactly the object's
(name, namespace) identity and nothing else, and `Error e` maps to an
error value wrapping `e`. -/
theorem c1_normalizer_total {K : Type} [Meta K] (o : K) (e : ErrorResponse) :
    ReconcileEvent.tryFrom (WatchEvent.Added o) = Except.ok ⟨Meta.name o, Meta.namespace' o⟩ ∧
    ReconcileEvent.tryFrom (WatchEvent.Modified o) = Except.ok ⟨Meta.name o, Meta.namespace' o⟩ ∧
    ReconcileEvent.tryFrom (WatchEvent.Deleted o) = Except.ok ⟨Meta.name o, Meta.namespace' o⟩ ∧
    ReconcileEvent.tryFrom (WatchEvent.Error e : WatchEvent K) = Except.error (Error.Api e) :=
  ⟨rfl, rfl, rfl, rfl⟩

/-- Claim C1, evaluated at the concrete kind `TestObj`. -/
theorem c1_normalizer_total_witness :
    ReconcileEvent.tryFrom (WatchEvent.Error e0 : WatchEvent TestObj) =
      Except.error (Error.Api e0) :=
  (c1_normalizer_total objA e0).2.2.2

/-- Claim C10: `kube_server` returns `some "https://host:port"` exactly
when both `KUBERNETES_SERVICE_HOST` and `KUBERNETES_SERVICE_PORT` are
set in the environment, and `none` when either is unset. -/
theorem c10_kube_server (env : String → Option String) :
    (∀ h p, env SERVICE_HOSTENV = some h → env SERVICE_PORTENV = some p →
      kube_server env = some ("https://" ++ h ++ ":" ++ p)) ∧
    (env SERVICE_HOSTENV = none → kube_server env = none) ∧
    (env SERVICE_PORTENV = none → kube_server env = none) := by
  refine ⟨?_, ?_, ?_⟩
  · intro h p hh hp
    simp [kube_server, kube_host, kube_port, hh, hp]
  · intro hh
    simp [kube_server, kube_host, kube_port, hh]
  · intro hp
    cases hH : env SERVICE_HOSTENV <;>
      simp [kube_server, kube_host, kube_port, hH, hp]

/-- Claim C10, evaluated on a concrete environment. -/
theorem c10_kube_server_witness :
    kube_server envBoth = some "https://fake.io:8080" := by
  have h := (c10_kube_server envBoth).1 "fake.io" "8080" (by decide) (by decide)
  exact h

/-- Claim C2 counterexample: three `Modified(objA)` notifications before
any drain leave three pending requests for `objA` on the channel, not
one — the sketched debounce queue is unused and every normalized event
is forwarded to the consumer unconditionally. -/
theorem c2_counterexample :
    listenerSends [Except.ok (WatchEvent.Modified objA), Except.ok (WatchEvent.Modified objA),
        Except.ok (WatchEvent.Modified objA)] =
      [Except.ok reqA, Except.ok reqA, Except.ok reqA] ∧
    (listenerSends [Except.ok (WatchEvent.Modified objA), Except.ok (WatchEvent.Modified objA),
        Except.ok (WatchEvent.Modified objA)]).length ≠ 1 :=
  ⟨rfl, by decide⟩

/-- Claim C2 amended: enqueuing three `Modified` notifications for the
same identity before the caller drains leaves exactly three pending
Reconcile Requests for that identity — one per notification; repeated
enqueue of a pending identity is not collapsed. -/
theorem c2_amended_no_debounce {K : Type} [Meta K] (o : K) :
    listenerSends [Except.ok (WatchEvent.Modified o), Except.ok (WatchEvent.Modified o),
        Except.ok (WatchEvent.Modified o)] =
      [Except.ok (ReconcileEvent.fromK o), Except.ok (ReconcileEvent.fromK o),
        Except.ok (ReconcileEvent.fromK o)] :=
  rfl

/-- Claim C2 amended, evaluated at the concrete object `objA`. -/
theorem c2_amended_no_debounce_witness :
    listenerSends [Except.ok (WatchEvent.Modified objA), Except.ok (WatchEvent.Modified objA),
        Except.ok (WatchEvent.Modified objA)] =
      [Except.ok (ReconcileEvent.fromK objA), Except.ok (ReconcileEvent.fromK objA),
        Except.ok (ReconcileEvent.fromK objA)] :=
  c2_amended_no_debounce objA

/-- Claim C3 counterexample: a controller whose only registered watched
resource is the primary spawns zero listeners on `init` — the primary
resource never gets a listener (only the owned informers are polled; the
main informer is left as a TODO in the source). -/
theorem c3_counterexample :
    ((Controller.new testClient podRes : Controller TestObj).init).2 = [] ∧
    (((Controller.new testClient podRes : Controller TestObj).init).2).length ≠ 1 :=
  ⟨rfl, by decide⟩

/-- Claim C3 amended: on start the Controller spawns exactly one
listener per owned secondary resource, in registration order, and none
for the primary resource; each listener normalizes every notification of
its stream with `tryFrom` and forwards each result onto the shared
channel. -/
theorem c3_amended_listeners {K : Type} [Meta K] (client : APIClient) (r : Resource)
    (regs : List (Resource × ListParams)) :
    ((regs.foldl (fun c p => c.owns p.1 p.2) (Controller.new client r) :
        Controller K).init).2.map Informer.resource = regs.map Prod.fst ∧
    (∀ evs : List (WatchEvent K),
      listenerSends (evs.map Except.ok) = evs.map ReconcileEvent.tryFrom) := by
  constructor
  · have h := foldl_owns_informers regs (Controller.new client r : Controller K)
    simpa [Controller.init, Controller.new] using h
  · exact listenerSends_map_ok

/-- Claim C3 amended, evaluated on one owned registration. -/
theorem c3_amended_listeners_witness :
    (([(rsRes, lp0)].foldl (fun c p => c.owns p.1 p.2)
        (Controller.new testClient podRes) : Controller TestObj).init).2.map
      Informer.resource = [rsRes] :=
  (c3_amended_listeners testClient podRes [(rsRes, lp0)]).1

/-- Claim C4 counterexample: after forwarding `Err(Error::Api(e0))` for
an `Error` notification the listener keeps running and forwards the next
notification — it does not terminate on the error. -/
theorem c4_counterexample :
    listenerSends [Except.ok (WatchEvent.Error e0 : WatchEvent TestObj),
        Except.ok (WatchEvent.Modified objA)] =
      [Except.error (Error.Api e0), Except.ok reqA] ∧
    (listenerSends [Except.ok (WatchEvent.Error e0 : WatchEvent TestObj),
        Except.ok (WatchEvent.Modified objA)]).length ≠ 1 :=
  ⟨rfl, by decide⟩

/-- Claim C4 amended: an `Error` notification is forwarded to the shared
channel as the pipeline-level error `Error::Api(e)` and is never
silently dropped, but the listener does not terminate — it continues
with the remaining notifications — and the forwarded value wraps only
the API error, not the originating resource identity. -/
theorem c4_amended_error_forwarded {K : Type} [Meta K] (e : ErrorResponse)
    (rest : List (Result (WatchEvent K))) :
    listenerSends (Except.ok (WatchEvent.Error e) :: rest) =
      Except.error (Error.Api e) :: listenerSends rest :=
  rfl

/-- Claim C4 amended, evaluated on a concrete one-event stream. -/
theorem c4_amended_error_forwarded_witness :
    listenerSends [Except.ok (WatchEvent.Error e0 : WatchEvent TestObj)] =
      [Except.error (Error.Api e0)] :=
  c4_amended_error_forwarded e0 []

/-- Claim C5: FIFO ordering at the consumer and per-resource order
end-to-end: in any interleaving of the listeners' sends onto the shared
channel, each listener's send sequence appears in its own order as a
subsequence of what the caller drains, and when a request `a` sits ahead
of a request `b` at the front of the buffer, the caller dequeues `a`
before `b`. -/
theorem c5_fifo_order {K : Type} [Meta K] (ls : List (List (Result (WatchEvent K))))
    (out : List (Result ReconcileEvent))
    (h : Interleaving (ls.map listenerSends) out) :
    (∀ (i : Nat) (s : List (Result (WatchEvent K))), ls.get? i = some s →
      List.Sublist (listenerSends s) (drainAll out)) ∧
    (∀ a b rest, out = a :: b :: rest →
      (dequeue out).1 = some a ∧ (dequeue (dequeue out).2).1 = some b) := by
  constructor
  · intro i s hi
    rw [drainAll_eq]
    exact interleaving_sublist h i (listenerSends s) (get?_map_some listenerSends ls i s hi)
  · intro a b rest hout
    subst hout
    exact ⟨rfl, rfl⟩

/-- Claim C5, evaluated on a concrete single-listener run. -/
theorem c5_fifo_order_witness :
    List.Sublist (listenerSends [Except.ok (WatchEvent.Modified objA)])
      (drainAll [Except.ok reqA]) := by
  have hmap : ([[Except.ok (WatchEvent.Modified objA)]].map listenerSends) =
      [[Except.ok reqA]] := rfl
  have hI : Interleaving ([[Except.ok (WatchEvent.Modified objA)]].map listenerSends)
      [Except.ok reqA] := by
    rw [hmap]
    refine Interleaving.step _ 0 (Except.ok reqA) [] [] rfl (Interleaving.nil _ ?_)
    intro l hl
    simpa using hl
  exact (c5_fifo_order [[Except.ok (WatchEvent.Modified objA)]] [Except.ok reqA] hI).1 0 _ rfl

/-- Claim C6 counterexample: `owns` can still be called after `init` —
the late registration succeeds and is recorded in the informer list, so
registration after start is permitted by the code (init consumes and
returns the controller, on which further builder calls compile and run). -/
theorem c6_counterexample :
    ((((Controller.new testClient podRes : Controller TestObj).init).1.owns rsRes
        lp0)).informers.length = 1 ∧
    ((((Controller.new testClient podRes : Controller TestObj).init).1)).informers.length = 0 ∧
    (1 : Nat) ≠ 0 :=
  ⟨rfl, rfl, by decide⟩

/-- Claim C6 amended: registering after start is still possible — `owns`
called after `init` appends an informer for the late resource — but it
has no effect on the running pipeline: the listeners spawned at `init`
are exactly those for the informers registered before it. -/
theorem c6_amended_late_owns {K : Type} (c : Controller K) (r : Resource) (lp : ListParams) :
    ((c.init).1.owns r lp).informers = c.informers ++ [Informer.new c.client lp r] ∧
    (c.init).2 = c.informers :=
  ⟨rfl, rfl⟩

/-- Claim C6 amended, evaluated on a concrete controller. -/
theorem c6_amended_late_owns_witness :
    (((Controller.new testClient podRes : Controller TestObj).init).1.owns rsRes
        lp0).informers =
      (Controller.new testClient podRes : Controller TestObj).informers ++
        [Informer.new testClient lp0 rsRes] :=
  (c6_amended_late_owns (Controller.new testClient podRes) rsRes lp0).1

/-- Claim C7: fault isolation — when resource R1's watch stream yields
an `Error` notification, R2's listener is unaffected: in every
interleaving of the two listeners' sends, all requests produced by R2's
listener are still delivered to the caller, in R2's order. -/
theorem c7_fault_isolation {K : Type} [Meta K] (s1 s2 : List (Result (WatchEvent K)))
    (e : ErrorResponse) (out : List (Result ReconcileEvent))
    (_he : Except.ok (WatchEvent.Error e) ∈ s1)
    (h : Interleaving [listenerSends s1, listenerSends s2] out) :
    List.Sublist (listenerSends s2) (drainAll out) := by
  rw [drainAll_eq]
  exact interleaving_sublist h 1 (listenerSends s2) rfl

/-- Claim C7, evaluated on a concrete two-listener run in which R1 fails
and R2 produces one request. -/
theorem c7_fault_isolation_witness :
    List.Sublist (listenerSends [Except.ok (WatchEvent.Modified objB)])
      (drainAll [Except.error (Error.Api e0), Except.ok reqB]) := by
  have hI : Interleaving
      [listenerSends [Except.ok (WatchEvent.Error e0 : WatchEvent TestObj)],
        listenerSends [Except.ok (WatchEvent.Modified objB)]]
      [Except.error (Error.Api e0), Except.ok reqB] := by
    refine Interleaving.step _ 0 (Except.error (Error.Api e0)) [] _ rfl ?_
    refine Interleaving.step _ 1 (Except.ok reqB) [] [] rfl (Interleaving.nil _ ?_)
    intro l hl
    simp at hl
    exact hl
  exact c7_fault_isolation [Except.ok (WatchEvent.Error e0)]
    [Except.ok (WatchEvent.Modified objB)] e0
    [Except.error (Error.Api e0), Except.ok reqB] (List.Mem.head _) hI

/-- Claim C8: cancellation safety — stopping the Controller leaves
already-forwarded requests in the channel buffer: with requests `a` then
`b` queued and undrained, the caller still dequeues `a` and then `b`
after the stop; only production ceases. -/
theorem c8_cancellation_safety (s : PipelineState) (a b : Result ReconcileEvent)
    (rest : List (Result ReconcileEvent)) (hbuf : s.buffer = a :: b :: rest) :
    (stopController s).buffer = s.buffer ∧
    (stopController s).producing = false ∧
    (pollPipeline (stopController s)).1 = some a ∧
    (pollPipeline (pollPipeline (stopController s)).2).1 = some b := by
  refine ⟨rfl, rfl, ?_, ?_⟩ <;> simp [stopController, pollPipeline, hbuf]

/-- Claim C8, evaluated on a concrete stopped pipeline holding two
undrained requests. -/
theorem c8_cancellation_safety_witness :
    (pollPipeline (stopController
        (PipelineState.mk [Except.ok reqA, Except.ok reqB] true))).1 =
      some (Except.ok reqA) :=
  (c8_cancellation_safety (PipelineState.mk [Except.ok reqA, Except.ok reqB] true)
    (Except.ok reqA) (Except.ok reqB) [] rfl).2.2.1

/-- Claim C9: the internal debounce queue is dead state — every
controller state reachable through `new`, `owns`, `init` and listener
sends (which target only the channel; the enqueue onto the queue is
commented out in the source) has an empty queue. -/
theorem c9_queue_dead {K : Type} (c : Controller K) (h : Reachable c) : c.queue = [] := by
  induction h with
  | new cl r => rfl
  | owns c r lp hc ih => exact ih
  | init c hc ih => exact ih
  | send c m hc ih => exact ih

/-- Claim C9, evaluated on a controller that registered an owned
resource, started, and had a listener forward one event. -/
theorem c9_queue_dead_witness :
    (⟨(((Controller.new testClient podRes : Controller TestObj).owns rsRes
          lp0).init).1.client,
      (((Controller.new testClient podRes : Controller TestObj).owns rsRes lp0).init).1.resource,
      (((Controller.new testClient podRes : Controller TestObj).owns rsRes
          lp0).init).1.informers,
      (((Controller.new testClient podRes : Controller TestObj).owns rsRes lp0).init).1.queue,
      (((Controller.new testClient podRes : Controller TestObj).owns rsRes
          lp0).init).1.channel ++ [Except.ok reqA]⟩ : Controller TestObj).queue = [] :=
  c9_queue_dead _ (Reachable.send _ (Except.ok reqA)
    (Reachable.init _ (Reachable.owns _ rsRes lp0 (Reachable.new testClient podRes))))
